import Mathlib

/-!
Verification development for the `node-with-postgres` example server.

The subject is the HTTP request router `requestHandler` in `src/index.js`.
We shallowly embed it: the persisted table `my_table` becomes a list of
records with a monotone id counter, the external database session
(the Data Access Collaborator of the spec) becomes an interpreter
`execQuery` over the three SQL texts the router issues, and a possible
query failure is injected through a `fault : Option String` argument
(the message the thrown error would carry).  The WHATWG URL parser used
by the source (`new URL(req.url, ...)`) is external; a request arrives
already parsed as `Option UrlParts`, with `none` standing for a `req.url`
on which `new URL` throws, and `UrlParts.nameParam` standing for
`searchParams.get(\x27name\x27)` (which is `null` only when the parameter
is absent, and the empty string for `?name=`).
-/

namespace NodePg

/-- Record: one row of `my_table` (`id BIGSERIAL`, `name varchar`,
`date TIMESTAMP DEFAULT current_timestamp`); the timestamp is abstracted
to a natural number supplied by the environment at insert time. -/
structure Record where
  id : Nat
  name : String
  date : Nat
deriving Repr, DecidableEq

/-- Db: state of `my_table` together with the sequence counter backing the
`BIGSERIAL` primary key. -/
structure Db where
  rows : List Record
  nextId : Nat
deriving Repr, DecidableEq

/-- SqlQuery: one call to the Data Access Collaborator, `query(text, params)`;
a call without a parameter array is a call with an empty one. -/
structure SqlQuery where
  text : String
  params : List String
deriving Repr, DecidableEq

/-- QueryResult: the shape `\x7brows, rowCount\x7d` returned by `query`. -/
structure QueryResult where
  rows : List Record
  rowCount : Nat
deriving Repr, DecidableEq

/-- SQL text of the query issued on the `/` (or empty) path in `src/index.js`. -/
def selectAllSql : String := "SELECT * FROM my_table;"

/-- SQL text of the query issued on the `/read` path in `src/index.js`. -/
def selectByNameSql : String := "SELECT * FROM my_table WHERE name = $1;"

/-- SQL text of the query issued on the `/add` path in `src/index.js`. -/
def insertSql : String := "INSERT INTO my_table(name) VALUES($1);"

/-- Interpreter for the Data Access Collaborator on the three statements the
router issues: `SELECT *` returns every row, the filtered `SELECT` returns the
rows whose `name` equals the single bound parameter, and `INSERT` appends one
row with the next serial id and the current timestamp (`rowCount` is the
number of returned rows for a `SELECT` and the number of inserted rows for
the `INSERT`).  Any other statement leaves the table unchanged. -/
def execQuery (db : Db) (now : Nat) (q : SqlQuery) : Db × QueryResult :=
  if q.text = selectAllSql then
    (db, ⟨db.rows, db.rows.length⟩)
  else if q.text = selectByNameSql then
    match q.params with
    | [n] =>
      let matching := db.rows.filter (fun r => r.name == n)
      (db, ⟨matching, matching.length⟩)
    | _ => (db, ⟨[], 0⟩)
  else if q.text = insertSql then
    match q.params with
    | [n] => (⟨db.rows ++ [⟨db.nextId, n, now⟩], db.nextId + 1⟩, ⟨[], 1⟩)
    | _ => (db, ⟨[], 0⟩)
  else (db, ⟨[], 0⟩)

/-- Json: the three response body shapes the router produces: a JSON array of
records, the JSON object `\x7bsuccess, message\x7d`, or a bare JSON string. -/
inductive Json where
  | arr : List Record → Json
  | obj : Bool → String → Json
  | str : String → Json
deriving Repr, DecidableEq

/-- Response: HTTP status code and JSON body, as written by `jsonResponse`. -/
structure Response where
  code : Nat
  body : Json
deriving Repr, DecidableEq

/-- LogEntry: the per-request console line written by `jsonResponse`
(method, url, response code; the wall-clock date is dropped). -/
structure LogEntry where
  method : String
  url : String
  code : Nat
deriving Repr, DecidableEq

/-- UrlParts: the outcome of `new URL(req.url, base)` as far as the router
reads it: the pathname and `searchParams.get(\x27name\x27)` (with `none` for
an absent parameter and `some ""` for `?name=`). -/
structure UrlParts where
  pathname : String
  nameParam : Option String
deriving Repr, DecidableEq

/-- Outcome: the observable effects of one call to `requestHandler`: the
table state afterwards, the response written (if any), the log lines
printed, and the queries passed to the Data Access Collaborator. -/
structure Outcome where
  db : Db
  response : Option Response
  log : List LogEntry
  issued : List SqlQuery
deriving Repr, DecidableEq

/-- Body of the 500 response built in the catch block of `src/index.js`. -/
def errorBody (msg : String) : String :=
  "Some error happened :(( -- (error: " ++ msg ++ ")"

/-- Body of the 404 response for unknown paths in `src/index.js`. -/
def notFoundBody : String := "The requested route doesn\x27t exist :("

/-- requestHandler: shallow embedding of the request handler in
`src/index.js`.  `parsed = none` models `new URL` throwing (which happens
before the try block, so nothing is written and nothing is logged).
Otherwise `name` defaults to `"john"` when the parameter is absent, the
path dispatches to one of the four branches, a thrown query (modelled by
`fault = some msg`) is caught and answered with a 500 whose body embeds
the message, and every written response is logged. -/
def requestHandler (fault : Option String) (db : Db) (now : Nat)
    (method url : String) (parsed : Option UrlParts) : Outcome :=
  match parsed with
  | none => ⟨db, none, [], []⟩
  | some requestUrl =>
    let name := requestUrl.nameParam.getD "john"
    if requestUrl.pathname = "" ∨ requestUrl.pathname = "/" then
      let q : SqlQuery := ⟨selectAllSql, []⟩
      match fault with
      | some msg => ⟨db, some ⟨500, .str (errorBody msg)⟩, [⟨method, url, 500⟩], [q]⟩
      | none =>
        let res := execQuery db now q
        ⟨res.1, some ⟨200, .arr res.2.rows⟩, [⟨method, url, 200⟩], [q]⟩
    else if requestUrl.pathname = "/read" then
      let q : SqlQuery := ⟨selectByNameSql, [name]⟩
      match fault with
      | some msg => ⟨db, some ⟨500, .str (errorBody msg)⟩, [⟨method, url, 500⟩], [q]⟩
      | none =>
        let res := execQuery db now q
        ⟨res.1, some ⟨200, .arr res.2.rows⟩, [⟨method, url, 200⟩], [q]⟩
    else if requestUrl.pathname = "/add" then
      let q : SqlQuery := ⟨insertSql, [name]⟩
      match fault with
      | some msg => ⟨db, some ⟨500, .str (errorBody msg)⟩, [⟨method, url, 500⟩], [q]⟩
      | none =>
        let res := execQuery db now q
        ⟨res.1,
         some ⟨200, .obj true ("Inserted " ++ toString res.2.rowCount
            ++ " row with name \x27" ++ name ++ "\x27")⟩,
         [⟨method, url, 200⟩], [q]⟩
    else
      ⟨db, some ⟨404, .str notFoundBody⟩, [⟨method, url, 404⟩], []⟩

/-- The inserted record produced by a successful `/add` with name `n` on
state `db` at time `now`. -/
def insertedRecord (db : Db) (now : Nat) (n : String) : Record :=
  ⟨db.nextId, n, now⟩

end NodePg

namespace NodePg

/-- C1: for every name string X, a successful `/add?name=X` followed by
`/read?name=X` returns a 200 response whose body is a non-empty JSON array
containing a record whose name equals X. -/
theorem add_then_read_finds_name (db : Db) (now₁ now₂ : Nat)
    (m₁ u₁ m₂ u₂ : String) (X : String) :
    ∃ rows,
      (requestHandler none
        (requestHandler none db now₁ m₁ u₁ (some ⟨"/add", some X⟩)).db
        now₂ m₂ u₂ (some ⟨"/read", some X⟩)).response
        = some ⟨200, Json.arr rows⟩
      ∧ rows ≠ [] ∧ ∃ r, r ∈ rows ∧ r.name = X := by
  refine ⟨(db.rows ++ [insertedRecord db now₁ X]).filter (fun r => r.name == X),
    ?_, ?_, ?_⟩
  · simp [requestHandler, execQuery, selectAllSql, selectByNameSql, insertSql,
      insertedRecord]
  · have hmem : insertedRecord db now₁ X ∈
        (db.rows ++ [insertedRecord db now₁ X]).filter (fun r => r.name == X) := by
      rw [List.mem_filter]
      exact ⟨List.mem_append_right _ (List.mem_singleton.mpr rfl), by
        simp [insertedRecord]⟩
    exact List.ne_nil_of_mem hmem
  · refine ⟨insertedRecord db now₁ X, ?_, rfl⟩
    rw [List.mem_filter]
    exact ⟨List.mem_append_right _ (List.mem_singleton.mpr rfl), by
      simp [insertedRecord]⟩

/-- Example table state used to witness the hypothesis-bearing theorems:
one row named `alice`, next serial id 2. -/
def dbEx : Db := ⟨[⟨1, "alice", 0⟩], 2⟩

/-- C2: a request to `/` (or the empty path) answers 200 with the JSON array
of all records and leaves the table unchanged; a request to `/read` answers
200 with exactly the records whose name equals the parameter and leaves the
table unchanged; in particular for a name `Y` carried by no record the body
is the empty array with status 200, not an error. -/
theorem root_and_read_contract (db : Db) (now : Nat) (m u : String)
    (p : String) (np : Option String) (n Y : String)
    (hp : p = "" ∨ p = "/") (hY : ∀ r ∈ db.rows, r.name ≠ Y) :
    ((requestHandler none db now m u (some ⟨p, np⟩)).response
        = some ⟨200, Json.arr db.rows⟩
      ∧ (requestHandler none db now m u (some ⟨p, np⟩)).db = db)
    ∧ ((requestHandler none db now m u (some ⟨"/read", some n⟩)).response
        = some ⟨200, Json.arr (db.rows.filter (fun r => r.name == n))⟩
      ∧ (requestHandler none db now m u (some ⟨"/read", some n⟩)).db = db)
    ∧ (requestHandler none db now m u (some ⟨"/read", some Y⟩)).response
        = some ⟨200, Json.arr []⟩ := by
  refine ⟨⟨?_, ?_⟩, ⟨?_, ?_⟩, ?_⟩
  · rcases hp with h | h <;> subst h <;>
      simp [requestHandler, execQuery, selectAllSql, selectByNameSql, insertSql]
  · rcases hp with h | h <;> subst h <;>
      simp [requestHandler, execQuery, selectAllSql, selectByNameSql, insertSql]
  · simp [requestHandler, execQuery, selectAllSql, selectByNameSql, insertSql]
  · simp [requestHandler, execQuery, selectAllSql, selectByNameSql, insertSql]
  · simp only [requestHandler, execQuery, selectAllSql, selectByNameSql, insertSql]
    simp only [String.reduceEq, or_self, if_false, reduceIte]
    simp only [Option.getD_some]
    have hfil : db.rows.filter (fun r => r.name == Y) = [] := by
      rw [List.filter_eq_nil_iff]
      intro r hr
      simpa using hY r hr
    simp [hfil]

/-- Witness for C2 at a concrete table, path and names. -/
theorem root_and_read_contract_witness :
    ((requestHandler none dbEx 0 "GET" "/" (some ⟨"/", none⟩)).response
        = some ⟨200, Json.arr dbEx.rows⟩
      ∧ (requestHandler none dbEx 0 "GET" "/" (some ⟨"/", none⟩)).db = dbEx)
    ∧ ((requestHandler none dbEx 0 "GET" "/" (some ⟨"/read", some "alice"⟩)).response
        = some ⟨200, Json.arr (dbEx.rows.filter (fun r => r.name == "alice"))⟩
      ∧ (requestHandler none dbEx 0 "GET" "/" (some ⟨"/read", some "alice"⟩)).db = dbEx)
    ∧ (requestHandler none dbEx 0 "GET" "/" (some ⟨"/read", some "bob"⟩)).response
        = some ⟨200, Json.arr []⟩ :=
  root_and_read_contract dbEx 0 "GET" "/" "/" none "alice" "bob"
    (Or.inr rfl) (by decide)

/-- C3: a request to `/add` with name parameter X (or the default) appends
exactly one record, whose name is X, and answers 200 with a JSON object of
shape success-true plus a message string. -/
theorem add_inserts_exactly_one (db : Db) (now : Nat) (m u : String)
    (np : Option String) :
    (requestHandler none db now m u (some ⟨"/add", np⟩)).db.rows
      = db.rows ++ [insertedRecord db now (np.getD "john")]
    ∧ (insertedRecord db now (np.getD "john")).name = np.getD "john"
    ∧ ∃ msg, (requestHandler none db now m u (some ⟨"/add", np⟩)).response
        = some ⟨200, Json.obj true msg⟩ := by
  refine ⟨?_, rfl, ?_⟩
  · simp [requestHandler, execQuery, selectAllSql, selectByNameSql, insertSql,
      insertedRecord]
  · exact ⟨"Inserted " ++ toString 1 ++ " row with name \x27" ++ np.getD "john" ++ "\x27", by
      simp [requestHandler, execQuery, selectAllSql, selectByNameSql, insertSql]⟩

/-- C4: a request whose path is none of the four known ones issues no query,
leaves the table unchanged, and answers 404 with a JSON string body. -/
theorem unknown_path_404 (fault : Option String) (db : Db) (now : Nat)
    (m u : String) (p : UrlParts)
    (h₁ : p.pathname ≠ "") (h₂ : p.pathname ≠ "/")
    (h₃ : p.pathname ≠ "/read") (h₄ : p.pathname ≠ "/add") :
    (requestHandler fault db now m u (some p)).db = db
    ∧ (requestHandler fault db now m u (some p)).issued = []
    ∧ (requestHandler fault db now m u (some p)).response
        = some ⟨404, Json.str notFoundBody⟩ := by
  obtain ⟨pp, np⟩ := p
  simp only [UrlParts.pathname] at h₁ h₂ h₃ h₄
  refine ⟨?_, ?_, ?_⟩ <;> simp [requestHandler, h₁, h₂, h₃, h₄]

/-- Witness for C4 at the path `/delete`. -/
theorem unknown_path_404_witness :
    (requestHandler none dbEx 0 "GET" "/delete" (some ⟨"/delete", none⟩)).db = dbEx
    ∧ (requestHandler none dbEx 0 "GET" "/delete" (some ⟨"/delete", none⟩)).issued = []
    ∧ (requestHandler none dbEx 0 "GET" "/delete" (some ⟨"/delete", none⟩)).response
        = some ⟨404, Json.str notFoundBody⟩ :=
  unknown_path_404 none dbEx 0 "GET" "/delete" ⟨"/delete", none⟩
    (by decide) (by decide) (by decide) (by decide)

/-- C6: on `/add` and on `/read`, omitting the name parameter behaves
exactly as supplying the name `john`: the whole outcome (table, response,
log, issued queries) coincides. -/
theorem omitted_name_defaults_to_john (fault : Option String) (db : Db)
    (now : Nat) (m u : String) :
    requestHandler fault db now m u (some ⟨"/add", none⟩)
      = requestHandler fault db now m u (some ⟨"/add", some "john"⟩)
    ∧ requestHandler fault db now m u (some ⟨"/read", none⟩)
      = requestHandler fault db now m u (some ⟨"/read", some "john"⟩) :=
  ⟨rfl, rfl⟩

/-- C8: the SQL text handed to the Data Access Collaborator does not depend
on the name value — two `/read` (or `/add`) requests differing only in the
name issue queries with identical text — and the name appears exactly as the
single bound parameter. -/
theorem name_flows_only_into_params (fault : Option String) (db : Db)
    (now : Nat) (m u : String) (n₁ n₂ : String) :
    ((requestHandler fault db now m u (some ⟨"/read", some n₁⟩)).issued.map SqlQuery.text
      = (requestHandler fault db now m u (some ⟨"/read", some n₂⟩)).issued.map SqlQuery.text)
    ∧ ((requestHandler fault db now m u (some ⟨"/add", some n₁⟩)).issued.map SqlQuery.text
      = (requestHandler fault db now m u (some ⟨"/add", some n₂⟩)).issued.map SqlQuery.text)
    ∧ (requestHandler fault db now m u (some ⟨"/read", some n₁⟩)).issued
        = [⟨selectByNameSql, [n₁]⟩]
    ∧ (requestHandler fault db now m u (some ⟨"/add", some n₁⟩)).issued
        = [⟨insertSql, [n₁]⟩] := by
  obtain _ | msg := fault <;>
    refine ⟨?_, ?_, ?_, ?_⟩ <;>
      simp [requestHandler, execQuery, selectAllSql, selectByNameSql, insertSql]

/-- C9: a name parameter present with empty value is not replaced by the
default `john`: `/add?name=` inserts a record whose name is the empty string
and `/read?name=` filters by the empty string. -/
theorem empty_name_param_not_defaulted (db : Db) (now : Nat) (m u : String) :
    (requestHandler none db now m u (some ⟨"/add", some ""⟩)).db.rows
      = db.rows ++ [insertedRecord db now ""]
    ∧ (requestHandler none db now m u (some ⟨"/read", some ""⟩)).response
      = some ⟨200, Json.arr (db.rows.filter (fun r => r.name == ""))⟩
    ∧ (requestHandler none db now m u (some ⟨"/read", some ""⟩)).issued
      = [⟨selectByNameSql, [""]⟩] := by
  refine ⟨?_, ?_, ?_⟩ <;>
    simp [requestHandler, execQuery, selectAllSql, selectByNameSql, insertSql,
      insertedRecord]

/-- C10: URL parsing happens before the try block, so a request whose URL
fails to parse produces no response, no log line, no query, and no table
change — the catch-all handler never runs. -/
theorem parse_failure_no_response_no_log (fault : Option String) (db : Db)
    (now : Nat) (m u : String) :
    requestHandler fault db now m u none = ⟨db, none, [], []⟩ := rfl

/-- C5: when the data operation of a known route throws with message `msg`,
the router catches it and answers 500 with a JSON string body embedding
`msg`, the table is left as it was, exactly one query was attempted (no
retry), the failed request is still logged, and a subsequent request is
served normally. -/
theorem query_failure_caught_as_500 (db : Db) (now now₂ : Nat)
    (m u m₂ u₂ : String) (p : UrlParts) (msg : String)
    (hp : p.pathname = "" ∨ p.pathname = "/" ∨ p.pathname = "/read"
      ∨ p.pathname = "/add") :
    (requestHandler (some msg) db now m u (some p)).response
      = some ⟨500, Json.str (errorBody msg)⟩
    ∧ (requestHandler (some msg) db now m u (some p)).db = db
    ∧ (requestHandler (some msg) db now m u (some p)).issued.length = 1
    ∧ (requestHandler (some msg) db now m u (some p)).log = [⟨m, u, 500⟩]
    ∧ (requestHandler none (requestHandler (some msg) db now m u (some p)).db
        now₂ m₂ u₂ (some ⟨"/", none⟩)).response
        = some ⟨200, Json.arr db.rows⟩ := by
  obtain ⟨pp, np⟩ := p
  simp only [UrlParts.pathname] at hp
  rcases hp with h | h | h | h <;> subst h <;>
    refine ⟨?_, ?_, ?_, ?_, ?_⟩ <;>
      simp [requestHandler, execQuery, selectAllSql, selectByNameSql, insertSql]

/-- Witness for C5: a failing insert on `/add` at a concrete table. -/
theorem query_failure_caught_as_500_witness :
    (requestHandler (some "boom") dbEx 0 "GET" "/add" (some ⟨"/add", some "x"⟩)).response
      = some ⟨500, Json.str (errorBody "boom")⟩
    ∧ (requestHandler (some "boom") dbEx 0 "GET" "/add" (some ⟨"/add", some "x"⟩)).db = dbEx
    ∧ (requestHandler (some "boom") dbEx 0 "GET" "/add" (some ⟨"/add", some "x"⟩)).issued.length = 1
    ∧ (requestHandler (some "boom") dbEx 0 "GET" "/add" (some ⟨"/add", some "x"⟩)).log
        = [⟨"GET", "/add", 500⟩]
    ∧ (requestHandler none
        (requestHandler (some "boom") dbEx 0 "GET" "/add" (some ⟨"/add", some "x"⟩)).db
        1 "GET" "/" (some ⟨"/", none⟩)).response
        = some ⟨200, Json.arr dbEx.rows⟩ :=
  query_failure_caught_as_500 dbEx 0 1 "GET" "/add" "GET" "/" ⟨"/add", some "x"⟩
    "boom" (Or.inr (Or.inr (Or.inr rfl)))

/-- ReqEnv: everything a single inbound request brings with it: whether its
query would throw (and with which message), the insertion timestamp, the
HTTP method and raw url, and the parsed URL parts (`none` when parsing
throws). -/
structure ReqEnv where
  fault : Option String
  now : Nat
  method : String
  url : String
  parsed : Option UrlParts
deriving Repr, DecidableEq

/-- handleEnv: one call of `requestHandler` on a request environment. -/
def handleEnv (db : Db) (r : ReqEnv) : Outcome :=
  requestHandler r.fault db r.now r.method r.url r.parsed

/-- runRequests: table state after the server has handled a sequence of
requests in order. -/
def runRequests (db : Db) : List ReqEnv → Db
  | [] => db
  | r :: rs => runRequests (handleEnv db r).db rs

/-- isSuccessfulAdd: the request went to `/add` and was answered 200. -/
def isSuccessfulAdd (db : Db) (r : ReqEnv) : Bool :=
  (match r.parsed with
   | some parts => parts.pathname == "/add"
   | none => false)
  && (match (handleEnv db r).response with
      | some resp => resp.code == 200
      | none => false)

/-- successfulAdds: how many requests of the sequence were successful
`/add` calls, threading the table state through. -/
def successfulAdds (db : Db) : List ReqEnv → Nat
  | [] => 0
  | r :: rs =>
    (if isSuccessfulAdd db r then 1 else 0) + successfulAdds (handleEnv db r).db rs

/-- Single-step growth: one handled request leaves the stored rows a prefix
of the new rows, and appends exactly one row precisely when it is a
successful `/add`. -/
theorem handleEnv_appends (db : Db) (r : ReqEnv) :
    ∃ tail, (handleEnv db r).db.rows = db.rows ++ tail
      ∧ tail.length = (if isSuccessfulAdd db r then 1 else 0) := by
  obtain ⟨fault, now, m, u, parsed⟩ := r
  obtain _ | ⟨pp, np⟩ := parsed
  · exact ⟨[], by simp [handleEnv, requestHandler, isSuccessfulAdd]⟩
  · by_cases h₁ : pp = "" ∨ pp = "/"
    · refine ⟨[], ?_, ?_⟩ <;>
        obtain _ | msg := fault <;>
          rcases h₁ with h | h <;> subst h <;>
            simp [handleEnv, requestHandler, isSuccessfulAdd, execQuery,
              selectAllSql, selectByNameSql, insertSql]
    · by_cases h₂ : pp = "/read"
      · subst h₂
        refine ⟨[], ?_, ?_⟩ <;>
          obtain _ | msg := fault <;>
            simp [handleEnv, requestHandler, isSuccessfulAdd, execQuery,
              selectAllSql, selectByNameSql, insertSql]
      · by_cases h₃ : pp = "/add"
        · subst h₃
          obtain _ | msg := fault
          · refine ⟨[insertedRecord db now (np.getD "john")], ?_, ?_⟩ <;>
              simp [handleEnv, requestHandler, isSuccessfulAdd, execQuery,
                selectAllSql, selectByNameSql, insertSql, insertedRecord]
          · refine ⟨[], ?_, ?_⟩ <;>
              simp [handleEnv, requestHandler, isSuccessfulAdd, execQuery,
                selectAllSql, selectByNameSql, insertSql]
        · refine ⟨[], ?_, ?_⟩ <;>
            simp [handleEnv, requestHandler, isSuccessfulAdd, h₁, h₂, h₃]

/-- Sequence growth: after any request sequence the number of stored rows is
the initial number plus the number of successful `/add` calls. -/
theorem runRequests_rows_length (db : Db) (reqs : List ReqEnv) :
    (runRequests db reqs).rows.length
      = db.rows.length + successfulAdds db reqs := by
  induction reqs generalizing db with
  | nil => simp [runRequests, successfulAdds]
  | cons r rs ih =>
    obtain ⟨tail, htail, hlen⟩ := handleEnv_appends db r
    have hstep : (handleEnv db r).db.rows.length
        = db.rows.length + (if isSuccessfulAdd db r then 1 else 0) := by
      rw [htail, List.length_append, hlen]
    simp only [runRequests, successfulAdds]
    rw [ih, hstep]
    omega

/-- C7: the table only grows — every handled request leaves the previous
rows as a prefix of the new rows — and after any sequence of handled
requests, `/` answers 200 with an array at least as long as the number of
successful `/add` calls in the sequence. -/
theorem table_only_grows (db : Db) (reqs : List ReqEnv)
    (fault : Option String) (now now₂ : Nat) (m u m₂ u₂ : String)
    (parsed : Option UrlParts) :
    (∃ tail, (requestHandler fault db now m u parsed).db.rows = db.rows ++ tail)
    ∧ ∃ rows,
        (requestHandler none (runRequests db reqs) now₂ m₂ u₂
            (some ⟨"/", none⟩)).response = some ⟨200, Json.arr rows⟩
        ∧ successfulAdds db reqs ≤ rows.length := by
  constructor
  · obtain ⟨tail, htail, -⟩ := handleEnv_appends db ⟨fault, now, m, u, parsed⟩
    exact ⟨tail, htail⟩
  · refine ⟨(runRequests db reqs).rows, ?_, ?_⟩
    · simp [requestHandler, execQuery, selectAllSql, selectByNameSql, insertSql]
    · rw [runRequests_rows_length]
      omega

end NodePg
